import Mathlib

/-!
Verification of the customer-retention orchestration workflow
(workers/python/workflows/customer_retention_workflow.py).

The workflow is shallowly embedded as pure Lean functions.  Activity
invocations are modelled through an environment record that supplies the
StageResult each named activity returns, result dictionaries become
structures with Option-valued fields (mirroring dict.get with defaults),
and the durable-timer / signal machinery of the approval loop is modelled
by a script: a list whose k-th entry is the signal consumed by the k-th
wait (none meaning that wait timed out), with an exhausted list also
meaning timeout.  The run function additionally returns the ordered trace
of activity invocations it issued, and the approval loop returns the
ordered trace of its generation / wait events, so that sequencing claims
can be stated about the embedding.
-/

namespace RetentionWf

/-- Characters stripped by Python str.strip: the full set of code points
CPython treats as whitespace (Py_UNICODE_ISSPACE): tab through carriage
return (09-0D), the information-separator controls (1C-1F), space (20),
next line (85), no-break space (A0), ogham space mark (1680), the
en-quad through hair-space range (2000-200A), line and paragraph
separators (2028, 2029), narrow no-break space (202F), medium
mathematical space (205F) and ideographic space (3000). -/
def pyIsSpace (c : Char) : Bool :=
  decide ((0x09 ≤ c.toNat ∧ c.toNat ≤ 0x0d) ∨
    (0x1c ≤ c.toNat ∧ c.toNat ≤ 0x1f) ∨
    c.toNat = 0x20 ∨ c.toNat = 0x85 ∨ c.toNat = 0xa0 ∨
    c.toNat = 0x1680 ∨
    (0x2000 ≤ c.toNat ∧ c.toNat ≤ 0x200a) ∨
    c.toNat = 0x2028 ∨ c.toNat = 0x2029 ∨ c.toNat = 0x202f ∨
    c.toNat = 0x205f ∨ c.toNat = 0x3000)

/-- Embedding of Python str.strip(): drop whitespace from both ends. -/
def pyStrip (s : String) : String :=
  ⟨((s.data.dropWhile pyIsSpace).reverse.dropWhile pyIsSpace).reverse⟩

/-- Embedding of Python character slicing s[:n]. -/
def pyTake (s : String) (n : Nat) : String :=
  ⟨s.data.take n⟩

/-- Input dataclass CustomerComplaint. -/
structure CustomerComplaint where
  customer_id : Int
  complaint_details : String
  order_ids : Option (List Int) := none
  urgency_level : String := "medium"
deriving DecidableEq

/-- Signal dataclass HumanApproval. -/
structure HumanApproval where
  approve : Bool
  followUp : String := ""
deriving DecidableEq

/-- Raw payload of the approve_resolution signal: a dict that may lack
either key; a missing key is modelled as none. -/
structure ApprovalPayload where
  approve : Option Bool
  followUp : Option String
deriving DecidableEq

/-- Embedding of the approve_resolution signal handler: builds the
HumanApproval with approval_data.get defaults (False and empty string).
It is a total function, so it never fails on any payload. -/
def approveResolution (payload : ApprovalPayload) : HumanApproval :=
  { approve := payload.approve.getD false
    followUp := payload.followUp.getD ("") }

/-- The extracted_metrics sub-dictionary of the case-analysis result;
each key may be absent. -/
structure Metrics where
  customer_retained : Option Bool
  retention_probability_percent : Option Rat
  total_estimated_value : Option Rat
deriving DecidableEq

/-- Result dictionary returned by an activity; the workflow reads the
keys success, response and extracted_metrics with dict.get defaults, so
each is Option-valued here. -/
structure StageResult where
  success : Option Bool
  response : Option String
  extracted_metrics : Option Metrics
deriving DecidableEq

/-- The configuration parameters of CustomerRetentionWorkflow.run.
temperature is Option-valued because the code checks it against None. -/
structure Config where
  postgres_host : String
  postgres_port : String
  postgres_db : String
  postgres_user : String
  postgres_password : String
  ollama_base_url : String
  model_name : String
  temperature : Option Rat
  redis_url : String
deriving DecidableEq

/-- The required_params dict of run, in insertion order. -/
def requiredParams (cfg : Config) : List (String × String) :=
  [("postgres_host", cfg.postgres_host),
   ("postgres_port", cfg.postgres_port),
   ("postgres_db", cfg.postgres_db),
   ("postgres_user", cfg.postgres_user),
   ("postgres_password", cfg.postgres_password),
   ("ollama_base_url", cfg.ollama_base_url),
   ("model_name", cfg.model_name),
   ("redis_url", cfg.redis_url)]

/-- The missing_params list comprehension: names whose value is falsy
(the empty string). -/
def missingParams (cfg : Config) : List String :=
  ((requiredParams cfg).filter (fun p => p.2 == "")).map Prod.fst

/-- True when run passes both validation checks. -/
def validConfig (cfg : Config) : Bool :=
  (missingParams cfg).isEmpty && cfg.temperature.isSome

/-- The datetime returned by workflow.now, to microsecond precision as in
Python; strftime with format Y m d H M S discards the microsecond. -/
structure Timestamp where
  year : Nat
  month : Nat
  day : Nat
  hour : Nat
  minute : Nat
  second : Nat
  microsecond : Nat
deriving DecidableEq

/-- Zero-padded two-digit decimal field of strftime (percent m, d, H, M, S). -/
def pad2 (n : Nat) : String :=
  ⟨[Nat.digitChar (n / 10 % 10), Nat.digitChar (n % 10)]⟩

/-- Zero-padded four-digit decimal year field of strftime (percent Y);
datetime years always lie in 1..9999. -/
def pad4 (n : Nat) : String :=
  ⟨[Nat.digitChar (n / 1000 % 10), Nat.digitChar (n / 100 % 10),
    Nat.digitChar (n / 10 % 10), Nat.digitChar (n % 10)]⟩

/-- Embedding of start_time.strftime with format string Y m d _ H M S. -/
def formatTs (t : Timestamp) : String :=
  pad4 t.year ++ pad2 t.month ++ pad2 t.day ++ "_" ++
    pad2 t.hour ++ pad2 t.minute ++ pad2 t.second

/-- Embedding of the case id f-string built at line 146 of the workflow. -/
def caseId (customer_id : Int) (t : Timestamp) : String :=
  "retention_" ++ toString customer_id ++ "_" ++ formatTs t

/-- The second-resolution fields of a timestamp (everything strftime keeps). -/
def secondsFields (t : Timestamp) : Nat × Nat × Nat × Nat × Nat × Nat :=
  (t.year, t.month, t.day, t.hour, t.minute, t.second)

/-- Field bounds under which the zero-padded strftime embedding is exact;
real datetimes satisfy far tighter bounds. -/
def tsFieldsValid (t : Timestamp) : Prop :=
  t.year < 10000 ∧ t.month < 100 ∧ t.day < 100 ∧
    t.hour < 100 ∧ t.minute < 100 ∧ t.second < 100

instance (t : Timestamp) : Decidable (tsFieldsValid t) := by
  unfold tsFieldsValid; infer_instance

/-- The fixed feedback default used when followUp strips to empty. -/
def defaultFeedback : String :=
  "This will not work. Please suggest something different."

/-- The conditional expression at line 332: keep followUp when its strip
is truthy (nonempty), otherwise substitute the fixed default. -/
def nextFeedback (a : HumanApproval) : String :=
  if pyStrip a.followUp = ("") then defaultFeedback else a.followUp

/-- The timedelta of the approval wait, in minutes. -/
def approvalTimeoutMinutes : Nat := 30

/-- Events of the approval loop, in execution order.  A generate event is
recorded when the suggest_resolution invocation for that attempt has
returned (the workflow awaits it before proceeding); the wait events
record how the subsequent wait_condition was resolved. -/
inductive LoopEvent where
  | generate (attempt : Nat) (feedback : String)
  | waitSignal (attempt : Nat)
  | waitTimeout (attempt : Nat) (minutes : Nat)
deriving DecidableEq

/-- Outcome of the resolution approval loop of stage 6. -/
structure LoopResult where
  attempts : Nat
  approved : Bool
  finalResolution : String
  lastResult : StageResult
  events : List LoopEvent
deriving DecidableEq

/-- Embedding of the stage-6 while loop (lines 289-339).  gen gives the
StageResult of the suggest_resolution invocation for a given attempt
number and feedback string; the script lists, per wait, the signal it
consumed, none (or an exhausted script) meaning the 30-minute timeout
fired with no signal. -/
def approvalLoop (gen : Nat → String → StageResult) :
    List (Option HumanApproval) → Nat → String → LoopResult
  | [], attempts, feedback =>
    { attempts := attempts + 1
      approved := true
      finalResolution := (gen (attempts + 1) feedback).response.getD ("")
      lastResult := gen (attempts + 1) feedback
      events := [LoopEvent.generate (attempts + 1) feedback,
                 LoopEvent.waitTimeout (attempts + 1) approvalTimeoutMinutes] }
  | none :: _, attempts, feedback =>
    { attempts := attempts + 1
      approved := true
      finalResolution := (gen (attempts + 1) feedback).response.getD ("")
      lastResult := gen (attempts + 1) feedback
      events := [LoopEvent.generate (attempts + 1) feedback,
                 LoopEvent.waitTimeout (attempts + 1) approvalTimeoutMinutes] }
  | some a :: rest, attempts, feedback =>
    if a.approve then
      { attempts := attempts + 1
        approved := true
        finalResolution := (gen (attempts + 1) feedback).response.getD ("")
        lastResult := gen (attempts + 1) feedback
        events := [LoopEvent.generate (attempts + 1) feedback,
                   LoopEvent.waitSignal (attempts + 1)] }
    else
      let r := approvalLoop gen rest (attempts + 1) (nextFeedback a)
      { r with events := LoopEvent.generate (attempts + 1) feedback ::
                 LoopEvent.waitSignal (attempts + 1) :: r.events }

/-- The environment of activity results: what each named activity returns
when the workflow awaits it.  suggest_resolution may answer differently
per attempt and per feedback string. -/
structure Env where
  customer_intelligence : StageResult
  operations_investigation : StageResult
  retention_strategy : StageResult
  business_intelligence : StageResult
  case_analysis : StageResult
  suggest_resolution : Nat → String → StageResult

/-- The strategy_executed dict of the final result: one success flag per
stage, keyed as in the source. -/
structure StrategyExecuted where
  customer_intelligence : Bool
  operations_investigation : Bool
  retention_strategy : Bool
  business_intelligence : Bool
  case_analysis : Bool
  resolution_suggestion : Bool
deriving DecidableEq

/-- Dataclass RetentionResult. -/
structure RetentionResult where
  case_id : String
  customer_retained : Bool
  total_estimated_value : Rat
  strategy_executed : StrategyExecuted
  executive_summary : String
  completion_time_minutes : Rat
  resolution_approved : Bool
  final_resolution : String
  resolution_attempts : Nat
deriving DecidableEq

/-- Default executive summary when the business-intelligence dict lacks
a response key. -/
def summaryDefault : String := "Executive report not available"

/-- The marker appended to the truncated executive summary. -/
def truncationMarker : String := "..."

/-- The executive summary character limit. -/
def summaryLimit : Nat := 500

/-- The activity names invoked by stages 2-5, in the order the workflow
issues them (the two members of each parallel pair are started in source
order before being awaited together). -/
def stageTaskNames : List String :=
  ["customer_intelligence_agent", "operations_investigation_agent",
   "retention_strategy_agent", "business_intelligence_agent",
   "case_analysis_agent"]

/-- Maps a loop event to the activity invocation it corresponds to. -/
def suggestInvocation : LoopEvent → Option String
  | LoopEvent.generate _ _ => some ("suggest_resolution")
  | _ => none

/-- The body of run after validation has passed (stages 1-7): computes
the RetentionResult of lines 364-381 and the ordered activity-invocation
trace. -/
def runBody (c : CustomerComplaint) (cfg : Config) (ts : Timestamp)
    (dur : Rat) (env : Env) (script : List (Option HumanApproval)) :
    RetentionResult × List String :=
  let case_id := caseId c.customer_id ts
  let loop := approvalLoop env.suggest_resolution script 0 ("")
  let metrics := env.case_analysis.extracted_metrics.getD ⟨none, none, none⟩
  let customer_retained : Bool :=
    match metrics.customer_retained with
    | some b => b
    | none => decide ((50 : Rat) ≤ metrics.retention_probability_percent.getD 0)
  let result : RetentionResult :=
    { case_id := case_id
      customer_retained := customer_retained
      total_estimated_value := metrics.total_estimated_value.getD 0
      strategy_executed :=
        { customer_intelligence := env.customer_intelligence.success.getD false
          operations_investigation := env.operations_investigation.success.getD false
          retention_strategy := env.retention_strategy.success.getD false
          business_intelligence := env.business_intelligence.success.getD false
          case_analysis := env.case_analysis.success.getD false
          resolution_suggestion := loop.lastResult.success.getD false }
      executive_summary :=
        pyTake (env.business_intelligence.response.getD summaryDefault) summaryLimit
          ++ truncationMarker
      completion_time_minutes := dur
      resolution_approved := loop.approved
      final_resolution := loop.finalResolution
      resolution_attempts := loop.attempts }
  (result, stageTaskNames ++ loop.events.filterMap suggestInvocation)

/-- The error message raised for missing string parameters. -/
def missingParamsMsg (cfg : Config) : String :=
  "Missing required workflow parameters: " ++
    String.intercalate (", ") (missingParams cfg)

/-- The error message raised for a missing temperature. -/
def missingTemperatureMsg : String :=
  "Missing required workflow parameter: temperature"

/-- Embedding of CustomerRetentionWorkflow.run: parameter validation,
then the staged pipeline.  Returns the result (or the ValueError message)
together with the ordered list of activity invocations issued. -/
def runWithTrace (c : CustomerComplaint) (cfg : Config) (ts : Timestamp)
    (dur : Rat) (env : Env) (script : List (Option HumanApproval)) :
    Except String RetentionResult × List String :=
  if (missingParams cfg).isEmpty then
    if cfg.temperature.isNone then
      (Except.error missingTemperatureMsg, [])
    else
      let p := runBody c cfg ts dur env script
      (Except.ok p.1, p.2)
  else
    (Except.error (missingParamsMsg cfg), [])

/-- Recognizes generation events. -/
def isGenEvent : LoopEvent → Bool
  | LoopEvent.generate _ _ => true
  | _ => false

/-- Recognizes wait-resolution events (signal consumed or timeout fired). -/
def isWaitEvent : LoopEvent → Bool
  | LoopEvent.waitSignal _ => true
  | LoopEvent.waitTimeout _ _ => true
  | _ => false

/-- Number of generation invocations recorded in a loop trace. -/
def countGen (es : List LoopEvent) : Nat := es.countP (fun e => isGenEvent e)

/-- Holds of traces that are a sequence of generate-then-wait blocks:
every generation is immediately followed by its wait resolution, and the
next generation starts only after that wait resolved. -/
def alternatesGenWait : List LoopEvent → Bool
  | [] => true
  | LoopEvent.generate _ _ :: w :: rest => isWaitEvent w && alternatesGenWait rest
  | _ => false


-- digit injectivity
/-- A fully-populated configuration used as concrete input. -/
def cfgEx : Config :=
  { postgres_host := "db", postgres_port := "5432", postgres_db := "store"
    postgres_user := "postgres", postgres_password := "pw"
    ollama_base_url := "http://ollama:11434", model_name := "llama3"
    temperature := some 0, redis_url := "redis://redis:6379" }

/-- A concrete complaint input. -/
def complaintEx : CustomerComplaint :=
  { customer_id := 42, complaint_details := "order arrived late" }

/-- A concrete orchestration start time. -/
def tsEx : Timestamp := ⟨2026, 10, 12, 9, 30, 0, 0⟩

/-- A successful stage result. -/
def srOk : StageResult :=
  { success := some true, response := some ("ok"), extracted_metrics := none }

/-- An environment in which every activity succeeds. -/
def envEx : Env :=
  { customer_intelligence := srOk, operations_investigation := srOk
    retention_strategy := srOk, business_intelligence := srOk
    case_analysis := srOk, suggest_resolution := fun _ _ => srOk }

/-- Two start times that differ only in the microsecond field. -/
def tsMicroA : Timestamp := ⟨2026, 10, 12, 9, 30, 0, 1⟩
def tsMicroB : Timestamp := ⟨2026, 10, 12, 9, 30, 0, 2⟩

/-- An environment whose business-intelligence response is the
two-character string hi, far below the truncation limit. -/
def envHi : Env :=
  { envEx with business_intelligence :=
      { success := some true, response := some ("hi"), extracted_metrics := none } }

/-- An environment whose case analysis reports no explicit retention
verdict and a 72 percent retention probability. -/
def env72 : Env :=
  { envEx with case_analysis :=
      { success := some true, response := none,
        extracted_metrics := some ⟨none, some 72, none⟩ } }

/-- A failed stage result. -/
def srFail : StageResult :=
  { success := some false, response := some ("boom"), extracted_metrics := none }

/-- An environment where customer intelligence fails and every other
activity succeeds. -/
def envMix : Env := { envEx with customer_intelligence := srFail }

/-- A configuration with an empty database host. -/
def cfgBad : Config := { cfgEx with postgres_host := "" }

/-- A rejection signal whose follow-up text is whitespace-only. -/
def haRej : HumanApproval := { approve := false, followUp := "  " }

/-- An approval signal. -/
def haApp : HumanApproval := { approve := true }

/-- A start time one second after tsEx. -/
def tsSecB : Timestamp := ⟨2026, 10, 12, 9, 30, 1, 0⟩

theorem digitChar_inj10 (a b : Nat) (ha : a < 10) (hb : b < 10)
    (h : Nat.digitChar a = Nat.digitChar b) : a = b := by
  have key : ∀ x, x < 10 → ∀ y, y < 10 → Nat.digitChar x = Nat.digitChar y → x = y := by decide
  exact key a ha b hb h

theorem strData_append (a b : String) : (a ++ b).data = a.data ++ b.data :=
  String.data_append a b

theorem pyStrip_eq_empty_iff (s : String) :
    pyStrip s = ("") ↔ s.data.all pyIsSpace = true := by
  constructor
  · intro h
    have h1 : ((s.data.dropWhile pyIsSpace).reverse.dropWhile pyIsSpace).reverse = [] := by
      have := congrArg String.data h
      simpa [pyStrip] using this
    have h2 : (s.data.dropWhile pyIsSpace).reverse.dropWhile pyIsSpace = [] := by
      simpa using congrArg List.reverse h1
    have h3 : ∀ x ∈ (s.data.dropWhile pyIsSpace).reverse, pyIsSpace x :=
      List.dropWhile_eq_nil_iff.mp h2
    have h4 : ∀ x ∈ s.data.dropWhile pyIsSpace, pyIsSpace x := by
      intro x hx
      exact h3 x (List.mem_reverse.mpr hx)
    have h5 : ∀ x ∈ s.data, pyIsSpace x := by
      intro x hx
      have hx2 : x ∈ s.data.takeWhile pyIsSpace ++ s.data.dropWhile pyIsSpace := by
        rw [List.takeWhile_append_dropWhile]
        exact hx
      rcases List.mem_append.mp hx2 with hmem | hmem
      · exact List.mem_takeWhile_imp hmem
      · exact h4 x hmem
    simpa [List.all_eq_true] using h5
  · intro h
    have h5 : ∀ x ∈ s.data, pyIsSpace x := by simpa [List.all_eq_true] using h
    have h2 : s.data.dropWhile pyIsSpace = [] :=
      List.dropWhile_eq_nil_iff.mpr h5
    simp [pyStrip, h2]

theorem formatTs_data (t : Timestamp) :
    (formatTs t).data =
      [Nat.digitChar (t.year / 1000 % 10), Nat.digitChar (t.year / 100 % 10),
       Nat.digitChar (t.year / 10 % 10), Nat.digitChar (t.year % 10),
       Nat.digitChar (t.month / 10 % 10), Nat.digitChar (t.month % 10),
       Nat.digitChar (t.day / 10 % 10), Nat.digitChar (t.day % 10), '_',
       Nat.digitChar (t.hour / 10 % 10), Nat.digitChar (t.hour % 10),
       Nat.digitChar (t.minute / 10 % 10), Nat.digitChar (t.minute % 10),
       Nat.digitChar (t.second / 10 % 10), Nat.digitChar (t.second % 10)] := rfl

theorem formatTs_inj (t1 t2 : Timestamp) (h1 : tsFieldsValid t1) (h2 : tsFieldsValid t2)
    (h : formatTs t1 = formatTs t2) : secondsFields t1 = secondsFields t2 := by
  obtain ⟨hy1, hmo1, hd1, hh1, hmi1, hs1⟩ := h1
  obtain ⟨hy2, hmo2, hd2, hh2, hmi2, hs2⟩ := h2
  have hd := congrArg String.data h
  rw [formatTs_data, formatTs_data] at hd
  simp only [List.cons.injEq, and_true] at hd
  obtain ⟨e1, e2, e3, e4, e5, e6, e7, e8, e9, e10, e11, e12, e13, e14, e15⟩ := hd
  have ten : (0:Nat) < 10 := by norm_num
  have y1 := digitChar_inj10 _ _ (Nat.mod_lt _ ten) (Nat.mod_lt _ ten) e1
  have y2 := digitChar_inj10 _ _ (Nat.mod_lt _ ten) (Nat.mod_lt _ ten) e2
  have y3 := digitChar_inj10 _ _ (Nat.mod_lt _ ten) (Nat.mod_lt _ ten) e3
  have y4 := digitChar_inj10 _ _ (Nat.mod_lt _ ten) (Nat.mod_lt _ ten) e4
  have m1 := digitChar_inj10 _ _ (Nat.mod_lt _ ten) (Nat.mod_lt _ ten) e5
  have m2 := digitChar_inj10 _ _ (Nat.mod_lt _ ten) (Nat.mod_lt _ ten) e6
  have d1 := digitChar_inj10 _ _ (Nat.mod_lt _ ten) (Nat.mod_lt _ ten) e7
  have d2 := digitChar_inj10 _ _ (Nat.mod_lt _ ten) (Nat.mod_lt _ ten) e8
  have hh1e := digitChar_inj10 _ _ (Nat.mod_lt _ ten) (Nat.mod_lt _ ten) e10
  have hh2e := digitChar_inj10 _ _ (Nat.mod_lt _ ten) (Nat.mod_lt _ ten) e11
  have mi1e := digitChar_inj10 _ _ (Nat.mod_lt _ ten) (Nat.mod_lt _ ten) e12
  have mi2e := digitChar_inj10 _ _ (Nat.mod_lt _ ten) (Nat.mod_lt _ ten) e13
  have s1e := digitChar_inj10 _ _ (Nat.mod_lt _ ten) (Nat.mod_lt _ ten) e14
  have s2e := digitChar_inj10 _ _ (Nat.mod_lt _ ten) (Nat.mod_lt _ ten) e15
  have hy : t1.year = t2.year := by omega
  have hmo : t1.month = t2.month := by omega
  have hdy : t1.day = t2.day := by omega
  have hhr : t1.hour = t2.hour := by omega
  have hmi : t1.minute = t2.minute := by omega
  have hse : t1.second = t2.second := by omega
  simp [secondsFields, hy, hmo, hdy, hhr, hmi, hse]


theorem caseId_eq_imp_formatTs_eq (cid : Int) (t1 t2 : Timestamp)
    (h : caseId cid t1 = caseId cid t2) : formatTs t1 = formatTs t2 := by
  have hd := congrArg String.data h
  rw [caseId, caseId, strData_append, strData_append] at hd
  exact String.ext (List.append_cancel_left hd)

theorem validConfig_parts (cfg : Config) (h : validConfig cfg = true) :
    (missingParams cfg).isEmpty = true ∧ cfg.temperature.isNone = false := by
  rw [validConfig, Bool.and_eq_true] at h
  refine ⟨h.1, ?_⟩
  cases htemp : cfg.temperature with
  | none => rw [htemp] at h; simp at h
  | some v => simp

theorem runWithTrace_valid (c : CustomerComplaint) (cfg : Config) (ts : Timestamp)
    (dur : Rat) (env : Env) (script : List (Option HumanApproval))
    (h : validConfig cfg = true) :
    runWithTrace c cfg ts dur env script =
      (Except.ok (runBody c cfg ts dur env script).1,
       (runBody c cfg ts dur env script).2) := by
  obtain ⟨h1, h2⟩ := validConfig_parts cfg h
  rw [runWithTrace]
  simp [h1, h2]

theorem approvalLoop_events_head (gen : Nat → String → StageResult) :
    ∀ (script : List (Option HumanApproval)) (n : Nat) (fb : String),
      ∃ t, (approvalLoop gen script n fb).events = LoopEvent.generate (n + 1) fb :: t := by
  intro script n fb
  match script with
  | [] => exact ⟨_, rfl⟩
  | none :: rest => exact ⟨_, rfl⟩
  | some a :: rest =>
    by_cases ha : a.approve
    · exact ⟨[LoopEvent.waitSignal (n + 1)], by simp [approvalLoop, ha]⟩
    · exact ⟨LoopEvent.waitSignal (n + 1) ::
        (approvalLoop gen rest (n + 1) (nextFeedback a)).events,
        by simp [approvalLoop, ha]⟩

theorem count_filterMap_suggest (es : List LoopEvent) :
    (es.filterMap suggestInvocation).count ("suggest_resolution") = countGen es := by
  induction es with
  | nil => rfl
  | cons e rest ih =>
    cases e with
    | generate k fb =>
      simp [suggestInvocation, countGen, isGenEvent, List.count_cons] at ih ⊢
      omega
    | waitSignal k =>
      simpa [suggestInvocation, countGen, isGenEvent] using ih
    | waitTimeout k m =>
      simpa [suggestInvocation, countGen, isGenEvent] using ih

theorem approvalLoop_reject_eq (gen : Nat → String → StageResult)
    (a : HumanApproval) (rest : List (Option HumanApproval)) (n : Nat) (fb : String)
    (ha : a.approve = false) :
    approvalLoop gen (some a :: rest) n fb =
      { approvalLoop gen rest (n + 1) (nextFeedback a) with
        events := LoopEvent.generate (n + 1) fb :: LoopEvent.waitSignal (n + 1) ::
          (approvalLoop gen rest (n + 1) (nextFeedback a)).events } := by
  simp [approvalLoop, ha]

theorem approvalLoop_approve_eq (gen : Nat → String → StageResult)
    (a : HumanApproval) (rest : List (Option HumanApproval)) (n : Nat) (fb : String)
    (ha : a.approve = true) :
    approvalLoop gen (some a :: rest) n fb =
      { attempts := n + 1, approved := true
        finalResolution := (gen (n + 1) fb).response.getD ("")
        lastResult := gen (n + 1) fb
        events := [LoopEvent.generate (n + 1) fb, LoopEvent.waitSignal (n + 1)] } := by
  simp [approvalLoop, ha]

theorem approvalLoop_rejected_then_approved (gen : Nat → String → StageResult)
    (aT : HumanApproval) (hT : aT.approve = true) :
    ∀ (rejects : List HumanApproval), (∀ a ∈ rejects, a.approve = false) →
      ∀ (n : Nat) (fb : String),
        (approvalLoop gen (rejects.map some ++ [some aT]) n fb).attempts = n + rejects.length + 1 ∧
        (approvalLoop gen (rejects.map some ++ [some aT]) n fb).approved = true ∧
        countGen (approvalLoop gen (rejects.map some ++ [some aT]) n fb).events = rejects.length + 1 := by
  intro rejects
  induction rejects with
  | nil =>
    intro _ n fb
    rw [List.map_nil, List.nil_append, approvalLoop_approve_eq gen aT [] n fb hT]
    simp [countGen, isGenEvent]
  | cons a rest ih =>
    intro hall n fb
    have ha : a.approve = false := hall a (by simp)
    have hrest : ∀ x ∈ rest, x.approve = false := fun x hx => hall x (by simp [hx])
    obtain ⟨ih1, ih2, ih3⟩ := ih hrest (n + 1) (nextFeedback a)
    rw [List.map_cons, List.cons_append,
      approvalLoop_reject_eq gen a (rest.map some ++ [some aT]) n fb ha]
    dsimp only
    refine ⟨by simp only [List.length_cons]; omega, ih2, ?_⟩
    simp [countGen, List.countP_cons, isGenEvent, List.length_cons] at ih3 ⊢
    omega

/-- Claim C1: if no approval signal is ever delivered (empty script), the
approval loop exits after exactly one 30-minute wait, with
resolution_approved true and resolution_attempts 1, and the final
resolution is the last-generated candidate: timeout is implicit approval,
never a failure. -/
theorem claim_C1 (c : CustomerComplaint) (cfg : Config) (ts : Timestamp)
    (dur : Rat) (env : Env) (hv : validConfig cfg = true) :
    ∃ r, (runWithTrace c cfg ts dur env []).1 = Except.ok r ∧
      r.resolution_approved = true ∧
      r.resolution_attempts = 1 ∧
      r.final_resolution = (env.suggest_resolution 1 ("")).response.getD ("") ∧
      (approvalLoop env.suggest_resolution [] 0 ("")).events =
        [LoopEvent.generate 1 (""), LoopEvent.waitTimeout 1 approvalTimeoutMinutes] ∧
      approvalTimeoutMinutes = 30 := by
  rw [runWithTrace_valid c cfg ts dur env [] hv]
  exact ⟨(runBody c cfg ts dur env []).1, rfl, rfl, rfl, rfl, rfl, rfl⟩

/-- Claim C2, counterexample: the claim says a business-intelligence
response shorter than the limit is returned unmodified, but the code
appends the truncation marker unconditionally: with response hi (length
2, below the 500 limit) the executive summary is hi followed by the
marker, not hi. -/
theorem claim_C2_counterexample :
    envHi.business_intelligence.response = some ("hi") ∧
    ("hi" : String).length ≤ summaryLimit ∧
    ((runWithTrace complaintEx cfgEx tsEx 0 envHi []).1.map
      (fun r => r.executive_summary)) = Except.ok ("hi...") ∧
    ("hi..." : String) ≠ ("hi" : String) :=
  ⟨rfl, by decide, rfl, by decide⟩

/-- Claim C2, amended: the executive summary is always the first 500
characters of the business-intelligence response with the marker
appended; when the response is longer than the limit the summary ends
with the marker and has length limit plus marker length, and when it is
shorter-or-equal the summary is the whole response with the marker
appended (not the unmodified response). -/
theorem claim_C2_amended (c : CustomerComplaint) (cfg : Config) (ts : Timestamp)
    (dur : Rat) (env : Env) (script : List (Option HumanApproval)) (s : String)
    (hv : validConfig cfg = true)
    (hresp : env.business_intelligence.response = some s) :
    ∃ r, (runWithTrace c cfg ts dur env script).1 = Except.ok r ∧
      r.executive_summary = pyTake s summaryLimit ++ truncationMarker ∧
      (summaryLimit < s.length →
        (∃ pre, r.executive_summary = pre ++ truncationMarker) ∧
        r.executive_summary.length = summaryLimit + truncationMarker.length) ∧
      (s.length ≤ summaryLimit → r.executive_summary = s ++ truncationMarker) := by
  rw [runWithTrace_valid c cfg ts dur env script hv]
  refine ⟨(runBody c cfg ts dur env script).1, rfl, ?_, ?_, ?_⟩
  · show pyTake (env.business_intelligence.response.getD summaryDefault) summaryLimit
      ++ truncationMarker = _
    rw [hresp, Option.getD_some]
  · intro hlong
    constructor
    · exact ⟨pyTake s summaryLimit, by
        show pyTake (env.business_intelligence.response.getD summaryDefault) summaryLimit
          ++ truncationMarker = _
        rw [hresp, Option.getD_some]⟩
    · show (pyTake (env.business_intelligence.response.getD summaryDefault) summaryLimit
        ++ truncationMarker).length = _
      rw [hresp, Option.getD_some]
      show (s.data.take summaryLimit ++ truncationMarker.data).length = _
      rw [List.length_append, List.length_take]
      have hs : s.length = s.data.length := rfl
      have hm : truncationMarker.length = 3 := rfl
      rw [hm]
      show min summaryLimit s.data.length + 3 = summaryLimit + 3
      omega
  · intro hshort
    show pyTake (env.business_intelligence.response.getD summaryDefault) summaryLimit
      ++ truncationMarker = _
    rw [hresp, Option.getD_some]
    show pyTake s summaryLimit ++ truncationMarker = _
    have : pyTake s summaryLimit = s := by
      apply String.ext
      show s.data.take summaryLimit = s.data
      exact List.take_of_length_le hshort
    rw [this]

/-- Claim C3: for every N rejections (signals with approve false, each
delivered before its wait timed out) followed by an approval, exactly
N plus 1 suggest_resolution invocations occur, resolution_attempts is
N plus 1, and resolution_approved is true; N = 0 gives attempts 1. -/
theorem claim_C3 (c : CustomerComplaint) (cfg : Config) (ts : Timestamp)
    (dur : Rat) (env : Env) (rejects : List HumanApproval) (aT : HumanApproval)
    (hv : validConfig cfg = true)
    (hr : ∀ a ∈ rejects, a.approve = false)
    (hT : aT.approve = true) :
    ∃ r, (runWithTrace c cfg ts dur env (rejects.map some ++ [some aT])).1 = Except.ok r ∧
      r.resolution_attempts = rejects.length + 1 ∧
      r.resolution_approved = true ∧
      (runWithTrace c cfg ts dur env (rejects.map some ++ [some aT])).2.count
        ("suggest_resolution") = rejects.length + 1 := by
  rw [runWithTrace_valid c cfg ts dur env (rejects.map some ++ [some aT]) hv]
  have key := approvalLoop_rejected_then_approved env.suggest_resolution aT hT rejects hr 0 ("")
  refine ⟨(runBody c cfg ts dur env (rejects.map some ++ [some aT])).1, rfl, ?_, key.2.1, ?_⟩
  · show (approvalLoop env.suggest_resolution (rejects.map some ++ [some aT]) 0 ("")).attempts = _
    omega
  · show (stageTaskNames ++ (approvalLoop env.suggest_resolution (rejects.map some ++ [some aT])
      0 ("")).events.filterMap suggestInvocation).count ("suggest_resolution") = _
    rw [List.count_append, count_filterMap_suggest]
    have hzero : stageTaskNames.count ("suggest_resolution") = 0 := by decide
    omega

/-- Claim C4: a stage result with success false never aborts the
orchestration: with customer intelligence failed and operations
investigation succeeded, the strategy stage is still invoked, the
pipeline reaches the approval stage and a terminal RetentionResult, and
the per-stage success map records every stage flag verbatim, with
exactly one false for the stage-1 pair. -/
theorem claim_C4 (c : CustomerComplaint) (cfg : Config) (ts : Timestamp)
    (dur : Rat) (env : Env) (script : List (Option HumanApproval))
    (hv : validConfig cfg = true)
    (hci : env.customer_intelligence.success = some false)
    (hoi : env.operations_investigation.success = some true) :
    ∃ r, (runWithTrace c cfg ts dur env script).1 = Except.ok r ∧
      ("retention_strategy_agent") ∈ (runWithTrace c cfg ts dur env script).2 ∧
      ("suggest_resolution") ∈ (runWithTrace c cfg ts dur env script).2 ∧
      r.strategy_executed =
        { customer_intelligence := false
          operations_investigation := true
          retention_strategy := env.retention_strategy.success.getD false
          business_intelligence := env.business_intelligence.success.getD false
          case_analysis := env.case_analysis.success.getD false
          resolution_suggestion :=
            (approvalLoop env.suggest_resolution script 0 ("")).lastResult.success.getD false } := by
  rw [runWithTrace_valid c cfg ts dur env script hv]
  refine ⟨(runBody c cfg ts dur env script).1, rfl, ?_, ?_, ?_⟩
  · show ("retention_strategy_agent") ∈ stageTaskNames ++ _
    simp [stageTaskNames]
  · show ("suggest_resolution") ∈ stageTaskNames ++
      (approvalLoop env.suggest_resolution script 0 ("")).events.filterMap suggestInvocation
    obtain ⟨t, ht⟩ := approvalLoop_events_head env.suggest_resolution script 0 ("")
    rw [ht]
    simp [suggestInvocation]
  · show ({ customer_intelligence := env.customer_intelligence.success.getD false
            operations_investigation := env.operations_investigation.success.getD false
            retention_strategy := env.retention_strategy.success.getD false
            business_intelligence := env.business_intelligence.success.getD false
            case_analysis := env.case_analysis.success.getD false
            resolution_suggestion :=
              (approvalLoop env.suggest_resolution script 0 ("")).lastResult.success.getD false } :
        StrategyExecuted) = _
    rw [hci, hoi]
    rfl

/-- Claim C5: when the case-analysis metrics carry no explicit
customer_retained verdict, the verdict falls back to the probability
rule: retention probability at least 50 gives true, otherwise false
(so 72 gives true and 49 gives false). -/
theorem claim_C5 (c : CustomerComplaint) (cfg : Config) (ts : Timestamp)
    (dur : Rat) (env : Env) (script : List (Option HumanApproval))
    (m : Metrics) (p : Rat)
    (hv : validConfig cfg = true)
    (hm : env.case_analysis.extracted_metrics = some m)
    (hcr : m.customer_retained = none)
    (hp : m.retention_probability_percent = some p) :
    ∃ r, (runWithTrace c cfg ts dur env script).1 = Except.ok r ∧
      r.customer_retained = decide ((50 : Rat) ≤ p) := by
  obtain ⟨mcr, mrp, mtv⟩ := m
  dsimp only at hcr hp
  subst hcr
  subst hp
  rw [runWithTrace_valid c cfg ts dur env script hv]
  refine ⟨(runBody c cfg ts dur env script).1, rfl, ?_⟩
  show (match (env.case_analysis.extracted_metrics.getD ⟨none, none, none⟩).customer_retained with
    | some b => b
    | none => decide ((50 : Rat) ≤
        (env.case_analysis.extracted_metrics.getD ⟨none, none, none⟩).retention_probability_percent.getD 0)) = _
  rw [hm]
  simp

/-- Claim C6: a missing or empty required configuration field (any of
the database, model or cache string parameters, or a missing
temperature) makes run fail immediately with a precondition error
before any task invocation is issued: the invocation trace is empty. -/
theorem claim_C6 (c : CustomerComplaint) (cfg : Config) (ts : Timestamp)
    (dur : Rat) (env : Env) (script : List (Option HumanApproval))
    (h : missingParams cfg ≠ [] ∨ cfg.temperature = none) :
    ∃ msg, runWithTrace c cfg ts dur env script = (Except.error msg, []) := by
  rcases h with h | h
  · cases hm : missingParams cfg with
    | nil => exact absurd hm h
    | cons x xs =>
      refine ⟨missingParamsMsg cfg, ?_⟩
      rw [runWithTrace, hm]
      simp
  · by_cases hmp : (missingParams cfg).isEmpty = true
    · refine ⟨missingTemperatureMsg, ?_⟩
      rw [runWithTrace, hmp, h]
      simp
    · refine ⟨missingParamsMsg cfg, ?_⟩
      rw [runWithTrace]
      simp [hmp]

/-- Claim C7, counterexample: two start timestamps that differ (in the
microsecond field only) produce the same case id, because strftime with
second resolution discards the sub-second part, so distinct start
timestamps do not always give distinct case ids. -/
theorem claim_C7_counterexample :
    tsMicroA ≠ tsMicroB ∧
    tsMicroA.microsecond ≠ tsMicroB.microsecond ∧
    caseId 42 tsMicroA = caseId 42 tsMicroB :=
  ⟨by decide, by decide, rfl⟩

/-- Claim C7, amended: the case id is a deterministic function of the
customer id and the start timestamp (the result field equals caseId of
exactly those two inputs), and runs whose start timestamps differ in a
second-resolution field (year, month, day, hour, minute or second)
produce different case ids; only same-second (sub-second) differences
may collide. -/
theorem claim_C7_amended :
    (∀ (c : CustomerComplaint) (cfg : Config) (ts : Timestamp) (dur : Rat)
      (env : Env) (script : List (Option HumanApproval)) (r : RetentionResult),
      validConfig cfg = true →
      (runWithTrace c cfg ts dur env script).1 = Except.ok r →
      r.case_id = caseId c.customer_id ts) ∧
    (∀ (cid : Int) (t1 t2 : Timestamp), tsFieldsValid t1 → tsFieldsValid t2 →
      secondsFields t1 ≠ secondsFields t2 → caseId cid t1 ≠ caseId cid t2) := by
  constructor
  · intro c cfg ts dur env script r hv hok
    rw [runWithTrace_valid c cfg ts dur env script hv] at hok
    have : (runBody c cfg ts dur env script).1 = r := by
      simpa using hok
    rw [← this]
    rfl
  · intro cid t1 t2 h1 h2 hne h
    exact hne (formatTs_inj t1 t2 h1 h2 (caseId_eq_imp_formatTs_eq cid t1 t2 h))

/-- Claim C8: when a wait consumes a rejection signal, the next
generation is invoked with feedback equal to the signal followUp text,
unless that text is blank or whitespace-only, in which case the fixed
default string is used. -/
theorem claim_C8 (gen : Nat → String → StageResult) (a : HumanApproval)
    (rest : List (Option HumanApproval)) (n : Nat) (fb : String)
    (ha : a.approve = false) :
    ∃ tail, (approvalLoop gen (some a :: rest) n fb).events =
      LoopEvent.generate (n + 1) fb :: LoopEvent.waitSignal (n + 1) ::
      LoopEvent.generate (n + 2)
        (if a.followUp.data.all pyIsSpace then defaultFeedback else a.followUp) :: tail := by
  obtain ⟨t, ht⟩ := approvalLoop_events_head gen rest (n + 1) (nextFeedback a)
  refine ⟨t, ?_⟩
  rw [approvalLoop_reject_eq gen a rest n fb ha]
  dsimp only
  rw [ht]
  have hfb : nextFeedback a =
      if a.followUp.data.all pyIsSpace then defaultFeedback else a.followUp := by
    rw [nextFeedback]
    by_cases hws : a.followUp.data.all pyIsSpace = true
    · rw [if_pos ((pyStrip_eq_empty_iff a.followUp).mpr hws), if_pos hws]
    · rw [if_neg (fun hc => hws ((pyStrip_eq_empty_iff a.followUp).mp hc)), if_neg hws]
  rw [hfb]

/-- Claim C9: the approval-loop event trace is a strict alternation of
generation and wait events: every suggest_resolution invocation
completes (its generate event is recorded on return) before its wait
begins, and the wait is resolved (signal or timeout) before the next
generation is issued, so at most one generation is in flight. -/
theorem claim_C9 (gen : Nat → String → StageResult)
    (script : List (Option HumanApproval)) (n : Nat) (fb : String) :
    alternatesGenWait (approvalLoop gen script n fb).events = true := by
  induction script generalizing n fb with
  | nil =>
    simp [approvalLoop, alternatesGenWait, isWaitEvent]
  | cons o rest ih =>
    cases o with
    | none => simp [approvalLoop, alternatesGenWait, isWaitEvent]
    | some a =>
      by_cases ha : a.approve
      · simp [approvalLoop, ha, alternatesGenWait, isWaitEvent]
      · have ha2 : a.approve = false := by simpa using ha
        rw [approvalLoop_reject_eq gen a rest n fb ha2]
        dsimp only
        simp only [alternatesGenWait, isWaitEvent, Bool.true_and]
        exact ih (n + 1) (nextFeedback a)

/-- Claim C10: the approve_resolution signal handler treats a missing
approve key as false and a missing followUp key as the empty string;
being a total function it never fails, and a payload without an approve
key never approves the resolution. -/
theorem claim_C10 (b : Option Bool) (s : Option String) :
    (approveResolution ⟨none, s⟩).approve = false ∧
    (approveResolution ⟨b, none⟩).followUp = ("") :=
  ⟨rfl, rfl⟩

/-- Witness for claim C1 at a concrete valid configuration. -/
theorem claim_C1_witness :
    validConfig cfgEx = true ∧
    (∃ r, (runWithTrace complaintEx cfgEx tsEx 0 envEx []).1 = Except.ok r ∧
      r.resolution_approved = true ∧
      r.resolution_attempts = 1 ∧
      r.final_resolution = (envEx.suggest_resolution 1 ("")).response.getD ("") ∧
      (approvalLoop envEx.suggest_resolution [] 0 ("")).events =
        [LoopEvent.generate 1 (""), LoopEvent.waitTimeout 1 approvalTimeoutMinutes] ∧
      approvalTimeoutMinutes = 30) :=
  ⟨by decide, claim_C1 complaintEx cfgEx tsEx 0 envEx (by decide)⟩

/-- Witness for the amended claim C2 at a concrete short response. -/
theorem claim_C2_witness :
    validConfig cfgEx = true ∧
    (∃ r, (runWithTrace complaintEx cfgEx tsEx 0 envHi []).1 = Except.ok r ∧
      r.executive_summary = pyTake ("hi") summaryLimit ++ truncationMarker ∧
      (summaryLimit < ("hi" : String).length →
        (∃ pre, r.executive_summary = pre ++ truncationMarker) ∧
        r.executive_summary.length = summaryLimit + truncationMarker.length) ∧
      (("hi" : String).length ≤ summaryLimit → r.executive_summary = ("hi") ++ truncationMarker)) :=
  ⟨by decide, claim_C2_amended complaintEx cfgEx tsEx 0 envHi [] ("hi") (by decide) rfl⟩

/-- Witness for claim C3 with one rejection followed by an approval. -/
theorem claim_C3_witness :
    (∀ a ∈ [haRej], a.approve = false) ∧ haApp.approve = true ∧
    (∃ r, (runWithTrace complaintEx cfgEx tsEx 0 envEx
        ([haRej].map some ++ [some haApp])).1 = Except.ok r ∧
      r.resolution_attempts = 2 ∧
      r.resolution_approved = true ∧
      (runWithTrace complaintEx cfgEx tsEx 0 envEx
        ([haRej].map some ++ [some haApp])).2.count ("suggest_resolution") = 2) :=
  ⟨by decide, rfl,
    claim_C3 complaintEx cfgEx tsEx 0 envEx [haRej] haApp (by decide) (by decide) rfl⟩

/-- Witness for claim C4 with one failed stage-1 task. -/
theorem claim_C4_witness :
    envMix.customer_intelligence.success = some false ∧
    envMix.operations_investigation.success = some true ∧
    (∃ r, (runWithTrace complaintEx cfgEx tsEx 0 envMix []).1 = Except.ok r ∧
      ("retention_strategy_agent") ∈ (runWithTrace complaintEx cfgEx tsEx 0 envMix []).2 ∧
      ("suggest_resolution") ∈ (runWithTrace complaintEx cfgEx tsEx 0 envMix []).2 ∧
      r.strategy_executed =
        { customer_intelligence := false
          operations_investigation := true
          retention_strategy := envMix.retention_strategy.success.getD false
          business_intelligence := envMix.business_intelligence.success.getD false
          case_analysis := envMix.case_analysis.success.getD false
          resolution_suggestion :=
            (approvalLoop envMix.suggest_resolution [] 0 ("")).lastResult.success.getD false }) :=
  ⟨rfl, rfl, claim_C4 complaintEx cfgEx tsEx 0 envMix [] (by decide) rfl rfl⟩

/-- Witness for claim C5 at a 72 percent probability. -/
theorem claim_C5_witness :
    env72.case_analysis.extracted_metrics = some ⟨none, some 72, none⟩ ∧
    (∃ r, (runWithTrace complaintEx cfgEx tsEx 0 env72 []).1 = Except.ok r ∧
      r.customer_retained = true) :=
  ⟨rfl, claim_C5 complaintEx cfgEx tsEx 0 env72 [] ⟨none, some 72, none⟩ 72
    (by decide) rfl rfl rfl⟩

/-- Witness for claim C6 with an empty database host. -/
theorem claim_C6_witness :
    (missingParams cfgBad ≠ [] ∨ cfgBad.temperature = none) ∧
    (∃ msg, runWithTrace complaintEx cfgBad tsEx 0 envEx [] = (Except.error msg, [])) :=
  ⟨Or.inl (by decide), claim_C6 complaintEx cfgBad tsEx 0 envEx [] (Or.inl (by decide))⟩

/-- Witness for the amended claim C7 at concrete timestamps one second apart. -/
theorem claim_C7_witness :
    ((runBody complaintEx cfgEx tsEx 0 envEx []).1.case_id =
      caseId complaintEx.customer_id tsEx) ∧
    (caseId 42 tsEx ≠ caseId 42 tsSecB) :=
  ⟨claim_C7_amended.1 complaintEx cfgEx tsEx 0 envEx []
      ((runBody complaintEx cfgEx tsEx 0 envEx []).1) (by decide) rfl,
    claim_C7_amended.2 42 tsEx tsSecB (by decide) (by decide) (by decide)⟩

/-- Witness for claim C8 with a whitespace-only follow-up. -/
theorem claim_C8_witness :
    haRej.approve = false ∧
    (∃ tail, (approvalLoop (fun _ _ => srOk) [some haRej] 0 ("")).events =
      LoopEvent.generate 1 ("") :: LoopEvent.waitSignal 1 ::
      LoopEvent.generate 2 defaultFeedback :: tail) :=
  ⟨rfl, claim_C8 (fun _ _ => srOk) haRej [] 0 ("") rfl⟩

end RetentionWf
